import Mathlib

/-!
Shallow embedding of `bot.py` from the LatestJobsBots repository: the
seen-set store (`load_seen` / `save_seen`, lines 27-33), the notification
channels (`telegram_send` / `twilio_send` / `notify`, lines 35-59), the
filter engine (`title_matches` lines 171-188, `location_matches` lines
191-199), the message formatter (`format_msg`, lines 201-206) and the
filter-and-notify part of the orchestrator `main` (lines 208-271).

Modelling conventions:
- Python strings are Lean `String`; `str.lower()` is ASCII lowering over
  the character list (`lowerStr`), which agrees with Python on the ASCII
  titles and location hints used by the program.
- The `re.search(p, t, re.I)` calls are modelled by an abstract oracle
  `search : String → String → Bool` applied to the pattern and the
  (already lowered) text, passed as an explicit parameter; `substrSearch`
  is one concrete instance, correct for patterns without regex
  metacharacters.
- The JSON text layer is modelled at the value level: a file on disk is
  `Option (Except Unit Json)` — `none` when absent, `some (Except.error ())`
  when present but unparsable (`json.loads` raises), `some (Except.ok j)`
  when it parses to the JSON value `j`.
- HTTP responses are modelled by an oracle `respond : Nat → Nat` giving the
  status code of the n-th request a function issues; `r.raise_for_status()`
  raises exactly when the status is at least 400.
- Python exceptions are `Except Unit`; an escaping exception is an
  `Except.error` result and skips everything after the raise point.
-/

/-- ASCII lowering of every character, the evaluable counterpart of
Python's `str.lower()` on ASCII data. -/
def lowerStr (s : String) : String := ⟨s.data.map Char.toLower⟩

/-- Character-list test: the first list is a leading segment of the second
(compared by code point). -/
def listIsPre : List Char → List Char → Bool
  | [], _ => true
  | _ :: _, [] => false
  | a :: as, b :: bs => (a.toNat == b.toNat) && listIsPre as bs

/-- Character-list test for Python's `needle in hay` substring operator. -/
def substrOf (needle : List Char) : List Char → Bool
  | [] => listIsPre needle []
  | b :: bs => listIsPre needle (b :: bs) || substrOf needle bs

/-- Concrete instance of the regex oracle: `re.search(p, t)` for a pattern
`p` that contains no regex metacharacters is exactly a substring test. -/
def substrSearch (p t : String) : Bool := substrOf p.data t.data

/-- Code-point comparison of strings, the order used by Python's `sorted`
on the id strings. -/
def charsLe : List Char → List Char → Bool
  | [], _ => true
  | _ :: _, [] => false
  | a :: as, b :: bs =>
    decide (a.toNat < b.toNat) || ((a.toNat == b.toNat) && charsLe as bs)

/-- String comparison feeding the sort in `save_seen`. -/
def strLeb (a b : String) : Bool := charsLe a.data b.data

/-- Python's `sorted` on a list of strings (bot.py line 33 and line 271). -/
def sortStrings (ids : List String) : List String := ids.mergeSort strLeb

/-- JSON values, as far as the seen-state file needs them. -/
inductive Json where
  | str (s : String)
  | arr (xs : List Json)
  | obj (fields : List (String × Json))

/-- The JSON value `{"ids": [...]}` that `save_seen` serializes and that
`load_seen` returns for an absent file (bot.py lines 30 and 33). -/
def seenJson (ids : List String) : Json :=
  Json.obj [("ids", Json.arr (ids.map Json.str))]

/-- Contents of the seen-state file: absent, present-but-unparsable, or a
parsed JSON value. -/
abbrev FileState := Option (Except Unit Json)

/-- Model of `load_seen` (bot.py lines 27-30): if the file exists, return
`json.loads` of its text — a parse failure raises and propagates, there is
no handler; if the file is absent, return the dict `{"ids": []}`. -/
def load_seen : FileState → Except Unit Json
  | none => Except.ok (seenJson [])
  | some r => r

/-- Model of `save_seen` (bot.py lines 32-33): write
`json.dumps({"ids": sorted(seen_ids)})`, replacing the prior file. -/
def save_seen (seen_ids : List String) : FileState :=
  some (Except.ok (seenJson (sortStrings seen_ids)))

/-- Field lookup in a JSON object, as `seen["ids"]` does in `main`
(bot.py line 216). -/
def lookupStr : List (String × Json) → String → Option Json
  | [], _ => none
  | (k, v) :: rest, key => if k = key then some v else lookupStr rest key

/-- Reads a JSON array of strings back as a string list. -/
def jsonStrings : List Json → Option (List String)
  | [] => some []
  | Json.str s :: rest => (jsonStrings rest).map (fun l => s :: l)
  | Json.arr _ :: _ => none
  | Json.obj _ :: _ => none

/-- Extraction of the id list from a loaded seen-state value, as
`set(seen["ids"])` consumes it in `main` (bot.py line 216). -/
def getIds : Json → Option (List String)
  | Json.str _ => none
  | Json.arr _ => none
  | Json.obj fields =>
    match lookupStr fields "ids" with
    | some (Json.arr xs) => jsonStrings xs
    | _ => none

/-- Truthiness of an environment variable read by `os.getenv`: set and
non-empty (Python's `if not VAR` treats `None` and `""` as false). -/
def truthy : Option String → Bool
  | none => false
  | some s => !s.isEmpty

/-- Credential environment read at the top of bot.py (lines 11-18). -/
structure Env where
  telegram_bot_token : Option String
  telegram_chat_id : Option String
  twilio_sid : Option String
  twilio_token : Option String
  twilio_from : Option String
  twilio_to : Option String

/-- The four Twilio credentials are all truthy (the guard on bot.py
line 45). -/
def twilioComplete (env : Env) : Bool :=
  truthy env.twilio_sid && truthy env.twilio_token &&
    truthy env.twilio_from && truthy env.twilio_to

/-- The two Telegram credentials are both truthy (the guards on bot.py
lines 36 and 54). -/
def telegramConfigured (env : Env) : Bool :=
  truthy env.telegram_bot_token && truthy env.telegram_chat_id

/-- Observable outcome of one `notify` call. -/
inductive SendOutcome where
  | sentTelegram
  | sentTwilio
  | printedStdout
  | skipped
deriving DecidableEq

/-- Model of `r.raise_for_status()`: raises exactly on status >= 400. -/
def raise_for_status (status : Nat) : Except Unit Unit :=
  if 400 ≤ status then Except.error () else Except.ok ()

/-- Model of `telegram_send` (bot.py lines 35-42): if either credential is
missing, print a warning to stderr and return (the message is dropped);
otherwise issue one POST and raise on an error status. The `text` argument
plays no role in the outcome beyond being the payload. -/
def telegram_send (env : Env) (_text : String) (respond : Nat → Nat) :
    Except Unit SendOutcome :=
  if !(truthy env.telegram_bot_token && truthy env.telegram_chat_id) then
    Except.ok SendOutcome.skipped
  else
    match raise_for_status (respond 0) with
    | Except.error e => Except.error e
    | Except.ok _ => Except.ok SendOutcome.sentTelegram

/-- Model of `twilio_send` (bot.py lines 44-51): if any of the four
credentials is missing, print a warning to stderr and return (the message
is dropped); otherwise issue exactly one POST and raise on an error
status — there is no retry loop and no backoff, and only `respond 0` is
ever consulted. -/
def twilio_send (env : Env) (_text : String) (respond : Nat → Nat) :
    Except Unit SendOutcome :=
  if !(truthy env.twilio_sid && truthy env.twilio_token &&
      truthy env.twilio_from && truthy env.twilio_to) then
    Except.ok SendOutcome.skipped
  else
    match raise_for_status (respond 0) with
    | Except.error e => Except.error e
    | Except.ok _ => Except.ok SendOutcome.sentTwilio

/-- Model of `notify` (bot.py lines 53-59): Telegram when both of its
credentials are truthy, else Twilio when `TWILIO_SID` alone is truthy,
else print the text to stdout. -/
def notify (env : Env) (text : String) (respond : Nat → Nat) :
    Except Unit SendOutcome :=
  if truthy env.telegram_bot_token && truthy env.telegram_chat_id then
    telegram_send env text respond
  else if truthy env.twilio_sid then
    twilio_send env text respond
  else
    Except.ok SendOutcome.printedStdout

/-- Uniform job record built by every fetcher in bot.py. -/
structure Job where
  id : String
  source : String
  company : String
  title : String
  url : String
  locations : List String
deriving DecidableEq

/-- The four filter lists of filters.yml; `main` reads `include_titles`,
`exclude_titles` and `locations_any_of` (bot.py lines 211-213) and never
reads `must_have_all`. -/
structure Filters where
  include_titles : List String
  exclude_titles : List String
  must_have_all : List String
  locations_any_of : List String

/-- Truthiness of the optional `must_all` argument (Python's
`if must_all:`, false for `None` and for `[]`). -/
def optTruthy : Option (List String) → Bool
  | none => false
  | some l => !l.isEmpty

/-- Model of `title_matches` (bot.py lines 171-188): lower the title, then
in order — reject on any exclusion match; reject when `must_all` is truthy
and some of its patterns fails; if `include_any` is non-empty accept
exactly when some pattern of it matches; otherwise accept. -/
def title_matches (search : String → String → Bool) (title : String)
    (include_any : List String) (exclude_any : List String)
    (must_all : Option (List String)) : Bool :=
  let t := lowerStr title
  if exclude_any.any (fun p => search p t) then
    false
  else if optTruthy must_all && !((must_all.getD []).all (fun p => search p t)) then
    false
  else if !include_any.isEmpty then
    include_any.any (fun p => search p t)
  else
    true

/-- Model of `location_matches` (bot.py lines 191-199): true when no hints
are configured; false when hints exist but the posting has no locations;
otherwise true exactly when some location string contains some hint,
both lowered. -/
def location_matches (locations : List String) (allowed : List String) : Bool :=
  if allowed.isEmpty then
    true
  else if locations.isEmpty then
    false
  else
    locations.any (fun loc =>
      allowed.any (fun a => substrOf (lowerStr a).data (lowerStr loc).data))

/-- Python's `str.title()` on ASCII data: an alphabetic character is
uppercased after a non-alphabetic one and lowercased after an alphabetic
one. -/
def titleChars : List Char → Bool → List Char
  | [], _ => []
  | c :: cs, prevAlpha =>
    (if c.isAlpha then (if prevAlpha then c.toLower else c.toUpper) else c) ::
      titleChars cs c.isAlpha

/-- Python's `str.title()` over an ASCII string. -/
def pyTitle (s : String) : String := ⟨titleChars s.data false⟩

/-- Model of `format_msg` (bot.py lines 201-206), including the literal
mojibake dash bytes of the source line. -/
def format_msg (job : Job) : String :=
  let company := pyTitle job.company
  let locationsStr :=
    if job.locations.isEmpty then "Location: N/A"
    else String.intercalate ", " job.locations
  "New: " ++ job.title ++ " â€” " ++ company ++ "\n" ++
    locationsStr ++ "\n" ++ job.url

/-- A job passes both filters as `main` applies them (bot.py lines 261 and
263): `title_matches` is called without a `must_all` argument. -/
def jobMatches (search : String → String → Bool) (cfg : Filters)
    (job : Job) : Bool :=
  title_matches search job.title cfg.include_titles cfg.exclude_titles none &&
    location_matches job.locations cfg.locations_any_of

/-- The filter-and-notify loop of `main` (bot.py lines 256-268), carried
out over the fetched job list with the evolving `new_seen` set, the match
counter and the list of messages delivered so far. A posting already in
`new_seen` is skipped; a posting failing either filter is skipped without
being recorded; otherwise `notify` runs — a delivery exception propagates
immediately — and only then is the id added and the counter bumped.
`deliver` abstracts `notify` with the ambient environment and network. -/
def processJobs (search : String → String → Bool)
    (deliver : String → Except Unit Unit) (cfg : Filters) :
    List Job → Finset String → Nat → List String →
      Except Unit (Finset String × Nat × List String)
  | [], new_seen, cnt, msgs => Except.ok (new_seen, cnt, msgs)
  | job :: rest, new_seen, cnt, msgs =>
    if job.id ∈ new_seen then
      processJobs search deliver cfg rest new_seen cnt msgs
    else if title_matches search job.title cfg.include_titles
        cfg.exclude_titles none = false then
      processJobs search deliver cfg rest new_seen cnt msgs
    else if location_matches job.locations cfg.locations_any_of = false then
      processJobs search deliver cfg rest new_seen cnt msgs
    else
      match deliver (format_msg job) with
      | Except.error e => Except.error e
      | Except.ok _ =>
        processJobs search deliver cfg rest (insert job.id new_seen)
          (cnt + 1) (msgs ++ [format_msg job])

/-- The run orchestrator from the point where the seen set has been loaded
(bot.py lines 215-271): `new_seen` starts as a copy of the loaded ids
(lines 216-217), the loop of lines 256-268 runs over the fetched jobs, and
on normal completion the final `new_seen` (the set handed to `save_seen`
on line 271) is returned together with the match count and the delivered
messages. An exception escaping the loop aborts the run before
`save_seen`, so an `Except.error` result carries no persisted state. -/
def runMain (search : String → String → Bool)
    (deliver : String → Except Unit Unit) (cfg : Filters)
    (jobs : List Job) (loaded : List String) :
    Except Unit (Finset String × Nat × List String) :=
  processJobs search deliver cfg jobs loaded.toFinset 0 []

/-- Decidable equality for `Except`, so closed runs can be checked by
`decide`. -/
instance {ε α : Type} [DecidableEq ε] [DecidableEq α] :
    DecidableEq (Except ε α) := fun a b =>
  match a, b with
  | Except.error e, Except.error f =>
    if h : e = f then isTrue (by rw [h]) else isFalse (fun hh => h (by injection hh))
  | Except.error _, Except.ok _ => isFalse (fun hh => Except.noConfusion hh)
  | Except.ok _, Except.error _ => isFalse (fun hh => Except.noConfusion hh)
  | Except.ok a, Except.ok b =>
    if h : a = b then isTrue (by rw [h]) else isFalse (fun hh => h (by injection hh))

/-- An environment with a full set of Twilio credentials and no Telegram
credentials. -/
def envTwilioOnly : Env :=
  { telegram_bot_token := none, telegram_chat_id := none,
    twilio_sid := some "AC123", twilio_token := some "token123",
    twilio_from := some "+15550001111", twilio_to := some "+15552223333" }

/-- An environment where only `TWILIO_SID` is set. -/
def envSidOnly : Env :=
  { telegram_bot_token := none, telegram_chat_id := none,
    twilio_sid := some "AC123", twilio_token := none,
    twilio_from := none, twilio_to := none }

/-- Response oracle: rate-limit status on the first two requests, success
afterwards. -/
def rateLimitedTwice : Nat → Nat := fun n => if n < 2 then 429 else 200

/-- Filter configuration with a single include pattern. -/
def cfgEngineer : Filters :=
  { include_titles := ["engineer"], exclude_titles := [],
    must_have_all := [], locations_any_of := [] }

/-- A fetched posting whose title fails the include filter. -/
def jobManager : Job :=
  { id := "greenhouse:acme:1", source := "greenhouse", company := "acme",
    title := "Product Manager", url := "https://jobs.example/1",
    locations := [] }

/-- A fetched posting whose title passes the include filter. -/
def jobEngineer : Job :=
  { id := "greenhouse:acme:2", source := "greenhouse", company := "acme",
    title := "Software Engineer, New Grad", url := "https://jobs.example/2",
    locations := ["San Francisco, United States"] }

/-- Delivery oracle that always succeeds. -/
def deliverOk : String → Except Unit Unit := fun _ => Except.ok ()

/-- A JSON array built from strings reads back as exactly those strings. -/
theorem jsonStrings_map_str (l : List String) :
    jsonStrings (l.map Json.str) = some l := by
  induction l with
  | nil => rfl
  | cons a l ih => simp [jsonStrings, ih]

/-- C7: loading the seen set returns the empty set `{ids: []}` when the
backing file is absent, and when the file is present but unparsable the
`json.loads` failure propagates to the caller (bot.py lines 27-30 have no
handler), so the set is not silently reset. -/
theorem c7_load_absent_empty_corrupt_raises :
    load_seen none = Except.ok (seenJson []) ∧
      load_seen (some (Except.error ())) = Except.error () :=
  ⟨rfl, rfl⟩

/-- C8: saving any list of id strings and loading the file back yields a
parseable `{ids: [...]}` value whose id list denotes the same set of ids
(the sort in `save_seen` only permutes them). -/
theorem c8_seen_roundtrip (ids : List String) :
    ∃ out : List String,
      load_seen (save_seen ids) = Except.ok (seenJson out) ∧
        getIds (seenJson out) = some out ∧
        out.toFinset = ids.toFinset := by
  refine ⟨sortStrings ids, rfl, ?_, ?_⟩
  · have h : getIds (seenJson (sortStrings ids)) =
        jsonStrings ((sortStrings ids).map Json.str) := rfl
    rw [h, jsonStrings_map_str]
  · exact List.toFinset_eq_of_perm _ _ (List.mergeSort_perm ids strLeb)

/-- Unfolded form of `title_matches` as one boolean expression: no
exclusion hit, and the must-have set passes when truthy, and the include
set passes when non-empty. -/
theorem title_matches_eq (search : String → String → Bool) (title : String)
    (include_any exclude_any : List String)
    (must_all : Option (List String)) :
    title_matches search title include_any exclude_any must_all =
      (!exclude_any.any (fun p => search p (lowerStr title)) &&
        (!(optTruthy must_all) ||
          (must_all.getD []).all (fun p => search p (lowerStr title))) &&
        (include_any.isEmpty ||
          include_any.any (fun p => search p (lowerStr title)))) := by
  simp only [title_matches]
  cases hex : exclude_any.any (fun p => search p (lowerStr title)) <;>
    cases hopt : optTruthy must_all <;>
      cases hall : (must_all.getD []).all (fun p => search p (lowerStr title)) <;>
        cases hinc : include_any.isEmpty <;>
          simp [hex, hopt, hall, hinc]

/-- C2: title matching evaluates in fixed order — an exclusion hit rejects
outright; otherwise a truthy must-have-all set must match completely;
otherwise a non-empty include set accepts exactly when some pattern
matches, and an empty include set accepts. In particular a title matching
both an exclude and an include pattern is rejected (second component). -/
theorem c2_title_match_order (search : String → String → Bool)
    (title : String) (include_any exclude_any : List String)
    (must_all : Option (List String)) :
    (title_matches search title include_any exclude_any must_all = true ↔
      ((∀ p ∈ exclude_any, search p (lowerStr title) = false) ∧
        (optTruthy must_all = true →
          ∀ p ∈ must_all.getD [], search p (lowerStr title) = true) ∧
        (include_any ≠ [] →
          ∃ p ∈ include_any, search p (lowerStr title) = true))) ∧
    ((∃ p ∈ exclude_any, search p (lowerStr title) = true) →
      title_matches search title include_any exclude_any must_all = false) := by
  rw [title_matches_eq]
  constructor
  · simp only [Bool.and_eq_true, Bool.or_eq_true, Bool.not_eq_true',
      List.any_eq_true, List.all_eq_true, List.isEmpty_iff,
      List.any_eq_false, Bool.not_eq_true]
    constructor
    · rintro ⟨⟨h1, h2⟩, h3⟩
      refine ⟨h1, ?_, ?_⟩
      · intro hopt p hp
        rcases h2 with h2 | h2
        · rw [hopt] at h2; cases h2
        · exact h2 p hp
      · intro hne
        rcases h3 with h3 | h3
        · exact absurd h3 hne
        · exact h3
    · rintro ⟨h1, h2, h3⟩
      refine ⟨⟨h1, ?_⟩, ?_⟩
      · cases hopt : optTruthy must_all
        · exact Or.inl rfl
        · exact Or.inr (h2 hopt)
      · rcases eq_or_ne include_any [] with he | he
        · exact Or.inl he
        · exact Or.inr (h3 he)
  · rintro ⟨p, hp, hsp⟩
    have hx : exclude_any.any (fun p => search p (lowerStr title)) = true :=
      List.any_eq_true.mpr ⟨p, hp, hsp⟩
    simp [hx]

/-- C3: location matching accepts everything when no hints are configured,
rejects a posting with no location strings when hints exist, and otherwise
accepts exactly when some location string contains some hint as a
substring after lowering both. -/
theorem c3_location_match_spec (locations allowed : List String) :
    location_matches locations allowed = true ↔
      (allowed = [] ∨ (locations ≠ [] ∧
        ∃ loc ∈ locations, ∃ a ∈ allowed,
          substrOf (lowerStr a).data (lowerStr loc).data = true)) := by
  unfold location_matches
  rcases allowed with _ | ⟨a, as⟩
  · simp
  · rcases locations with _ | ⟨l, ls⟩
    · simp
    · simp only [List.isEmpty_cons, Bool.false_eq_true, if_false,
        List.any_eq_true]
      constructor
      · rintro ⟨loc, hloc, b, hb, hsb⟩
        exact Or.inr ⟨List.cons_ne_nil _ _, loc, hloc, b, hb, hsb⟩
      · rintro (h | ⟨-, loc, hloc, b, hb, hsb⟩)
        · cases h
        · exact ⟨loc, hloc, b, hb, hsb⟩

/-- C5 counterexample: with full Twilio credentials and a gateway that
rate-limits the first two requests (status 429) and would succeed on the
third, `twilio_send` raises a delivery error — bot.py lines 44-51 issue a
single request with no retry loop, so the claimed retry-to-success never
happens. -/
theorem c5_counterexample :
    twilio_send envTwilioOnly "New jobs" rateLimitedTwice =
      Except.error () := by decide

/-- C5 corrected: with complete credentials, `twilio_send` performs exactly
one request — it errors precisely when the first response status is an
error status (429 included), and its result depends only on the first
response, so no retry is ever made. -/
theorem c5_single_attempt_no_retry (env : Env) (text : String)
    (respond : Nat → Nat) (h : twilioComplete env = true) :
    (twilio_send env text respond = Except.error () ↔ 400 ≤ respond 0) ∧
      (∀ respond' : Nat → Nat, respond 0 = respond' 0 →
        twilio_send env text respond = twilio_send env text respond') := by
  have hg : (truthy env.twilio_sid && truthy env.twilio_token &&
      truthy env.twilio_from && truthy env.twilio_to) = true := h
  constructor
  · simp only [twilio_send, hg, Bool.not_true, Bool.false_eq_true, if_false,
      raise_for_status]
    by_cases hs : 400 ≤ respond 0
    · simp [hs]
    · simp [hs]
  · intro respond' hr
    simp only [twilio_send, hg, Bool.not_true, Bool.false_eq_true, if_false,
      raise_for_status, hr]

/-- C5 witness: the corrected statement applied to the concrete full-credential
environment and a gateway answering 201. -/
theorem c5_single_attempt_no_retry_witness :
    twilioComplete envTwilioOnly = true ∧
      (twilio_send envTwilioOnly "New jobs" (fun _ => 201) =
          Except.error () ↔ 400 ≤ 201) :=
  ⟨by decide,
    (c5_single_attempt_no_retry envTwilioOnly "New jobs" (fun _ => 201)
      (by decide)).1⟩

/-- C6 counterexample: with only `TWILIO_SID` set (Telegram absent, the
other three Twilio credentials absent), `notify` routes to `twilio_send`
(bot.py line 56 checks `TWILIO_SID` alone), which then skips the send with
a stderr warning — the message is neither delivered nor written to the
stdout sink, so the claimed fall-through to stdout does not happen. -/
theorem c6_counterexample :
    notify envSidOnly "New jobs" (fun _ => 200) =
        Except.ok SendOutcome.skipped ∧
      SendOutcome.skipped ≠ SendOutcome.printedStdout ∧
      SendOutcome.skipped ≠ SendOutcome.sentTwilio := by
  refine ⟨by decide, by decide, by decide⟩

/-- C6 corrected: channel selection is deterministic but keyed on
`TWILIO_SID` alone for the gateway — Telegram is used when both of its
credentials are truthy; otherwise, when `TWILIO_SID` is truthy the gateway
path is taken, and it sends only when all four Twilio credentials are
truthy, dropping the message with only a stderr warning when one is
missing; the stdout fallback happens only when Telegram is not configured
and `TWILIO_SID` is not truthy. -/
theorem c6_channel_selection (env : Env) (text : String)
    (respond : Nat → Nat) :
    (telegramConfigured env = true →
      notify env text respond = telegram_send env text respond) ∧
    (telegramConfigured env = false → truthy env.twilio_sid = true →
      notify env text respond = twilio_send env text respond) ∧
    (telegramConfigured env = false → truthy env.twilio_sid = true →
      twilioComplete env = false →
      notify env text respond = Except.ok SendOutcome.skipped) ∧
    (telegramConfigured env = false → truthy env.twilio_sid = false →
      notify env text respond = Except.ok SendOutcome.printedStdout) := by
  refine ⟨?_, ?_, ?_, ?_⟩
  · intro h
    have hg : (truthy env.telegram_bot_token &&
        truthy env.telegram_chat_id) = true := h
    simp [notify, hg]
  · intro h hs
    have hg : (truthy env.telegram_bot_token &&
        truthy env.telegram_chat_id) = false := h
    simp [notify, hg, hs]
  · intro h hs hc
    have hg : (truthy env.telegram_bot_token &&
        truthy env.telegram_chat_id) = false := h
    have hc4 : (truthy env.twilio_sid && truthy env.twilio_token &&
        truthy env.twilio_from && truthy env.twilio_to) = false := hc
    have ht : twilio_send env text respond = Except.ok SendOutcome.skipped := by
      simp only [twilio_send, hc4, Bool.not_false, if_true]
    simp [notify, hg, hs, ht]
  · intro h hs
    have hg : (truthy env.telegram_bot_token &&
        truthy env.telegram_chat_id) = false := h
    simp [notify, hg, hs]

/-- C6 witness: the corrected selection applied to the environment where
only `TWILIO_SID` is set — the message ends up skipped. -/
theorem c6_channel_selection_witness :
    telegramConfigured envSidOnly = false ∧
      truthy envSidOnly.twilio_sid = true ∧
      twilioComplete envSidOnly = false ∧
      notify envSidOnly "New jobs" (fun _ => 200) =
        Except.ok SendOutcome.skipped :=
  ⟨by decide, by decide, by decide,
    (c6_channel_selection envSidOnly "New jobs" (fun _ => 200)).2.2.1
      (by decide) (by decide) (by decide)⟩

/-- Absorbing an element already in the left operand of a union. -/
theorem union_insert_of_mem {s t : Finset String} {a : String} (h : a ∈ s) :
    s ∪ insert a t = s ∪ t := by
  rw [Finset.union_insert, Finset.insert_eq_self.mpr (Finset.mem_union_left t h)]

/-- Moving an inserted element across a union. -/
theorem insert_union_comm (s t : Finset String) (a : String) :
    insert a s ∪ t = s ∪ insert a t := by
  rw [Finset.insert_union, Finset.union_insert]

/-- The loop of `main` on success: the final `new_seen` is the starting set
together with the ids of exactly the postings that pass both filters. -/
theorem processJobs_ok_seen (search : String → String → Bool)
    (deliver : String → Except Unit Unit) (cfg : Filters) :
    ∀ (jobs : List Job) (ns : Finset String) (cnt : Nat) (msgs : List String)
      (res : Finset String × Nat × List String),
      processJobs search deliver cfg jobs ns cnt msgs = Except.ok res →
      res.1 = ns ∪
        ((jobs.filter (jobMatches search cfg)).map Job.id).toFinset := by
  intro jobs
  induction jobs with
  | nil =>
    intro ns cnt msgs res h
    simp only [processJobs] at h
    cases h
    simp
  | cons job rest ih =>
    intro ns cnt msgs res h
    simp only [processJobs] at h
    by_cases h1 : job.id ∈ ns
    · rw [if_pos h1] at h
      have hres := ih ns cnt msgs res h
      cases hm : jobMatches search cfg job
      · rw [hres]
        simp only [List.filter_cons, hm, Bool.false_eq_true, if_false]
      · rw [hres]
        simp only [List.filter_cons, hm, if_true, List.map_cons,
          List.toFinset_cons]
        exact (union_insert_of_mem h1).symm
    · rw [if_neg h1] at h
      cases htb : title_matches search job.title cfg.include_titles
          cfg.exclude_titles none
      · rw [if_pos htb] at h
        have hres := ih ns cnt msgs res h
        rw [hres]
        have hm : jobMatches search cfg job = false := by
          simp [jobMatches, htb]
        simp only [List.filter_cons, hm, Bool.false_eq_true, if_false]
      · rw [if_neg (by simp [htb])] at h
        cases hlb : location_matches job.locations cfg.locations_any_of
        · rw [if_pos hlb] at h
          have hres := ih ns cnt msgs res h
          rw [hres]
          have hm : jobMatches search cfg job = false := by
            simp [jobMatches, hlb]
          simp only [List.filter_cons, hm, Bool.false_eq_true, if_false]
        · rw [if_neg (by simp [hlb])] at h
          rcases hd : deliver (format_msg job) with e | u
          · rw [hd] at h
            exact Except.noConfusion h
          · rw [hd] at h
            have hres := ih (insert job.id ns) (cnt + 1)
              (msgs ++ [format_msg job]) res h
            rw [hres]
            have hm : jobMatches search cfg job = true := by
              simp [jobMatches, htb, hlb]
            simp only [List.filter_cons, hm, if_true, List.map_cons,
              List.toFinset_cons]
            exact insert_union_comm ns _ job.id

/-- The loop of `main` with an always-failing delivery channel: as soon as
some posting not yet in the seen set passes both filters, the delivery
exception propagates out of the loop. -/
theorem processJobs_fail (search : String → String → Bool) (cfg : Filters) :
    ∀ (jobs : List Job) (ns : Finset String) (cnt : Nat) (msgs : List String),
      (∃ job ∈ jobs, job.id ∉ ns ∧ jobMatches search cfg job = true) →
      processJobs search (fun _ => Except.error ()) cfg jobs ns cnt msgs =
        Except.error () := by
  intro jobs
  induction jobs with
  | nil =>
    rintro ns cnt msgs ⟨job, hj, -, -⟩
    simp at hj
  | cons job rest ih =>
    rintro ns cnt msgs ⟨j0, hj0, hnew, hmatch⟩
    simp only [processJobs]
    by_cases h1 : job.id ∈ ns
    · rw [if_pos h1]
      apply ih
      rcases List.mem_cons.mp hj0 with rfl | hj0'
      · exact absurd h1 hnew
      · exact ⟨j0, hj0', hnew, hmatch⟩
    · rw [if_neg h1]
      by_cases htb : title_matches search job.title cfg.include_titles
          cfg.exclude_titles none = false
      · rw [if_pos htb]
        apply ih
        rcases List.mem_cons.mp hj0 with rfl | hj0'
        · exfalso
          simp [jobMatches, htb] at hmatch
        · exact ⟨j0, hj0', hnew, hmatch⟩
      · rw [if_neg htb]
        by_cases hlb : location_matches job.locations
            cfg.locations_any_of = false
        · rw [if_pos hlb]
          apply ih
          rcases List.mem_cons.mp hj0 with rfl | hj0'
          · exfalso
            simp [jobMatches, hlb] at hmatch
          · exact ⟨j0, hj0', hnew, hmatch⟩
        · rw [if_neg hlb]

/-- C1 counterexample: a run over one fetched posting that is new (empty
loaded seen set) but fails the title filter ends successfully with an
empty persisted set — the new non-matching posting's id was not added
(bot.py line 266 runs only after both filter checks pass), contradicting
the claim that every new posting's id is recorded. -/
theorem c1_counterexample :
    runMain substrSearch deliverOk cfgEngineer [jobManager] [] =
      Except.ok (∅, 0, []) := by decide

/-- C1 corrected: on a successful run the persisted seen set is the loaded
set united with the ids of exactly those fetched postings that pass both
the title and the location filter; new postings failing a filter are left
out and will be re-evaluated on every later run. -/
theorem c1_persisted_ids (search : String → String → Bool)
    (deliver : String → Except Unit Unit) (cfg : Filters)
    (jobs : List Job) (loaded : List String)
    (res : Finset String × Nat × List String)
    (h : runMain search deliver cfg jobs loaded = Except.ok res) :
    res.1 = loaded.toFinset ∪
      ((jobs.filter (jobMatches search cfg)).map Job.id).toFinset :=
  processJobs_ok_seen search deliver cfg jobs loaded.toFinset 0 [] res h

/-- C1 witness: the corrected statement evaluated on a run with one
matching and one non-matching posting over a one-element loaded set. -/
theorem c1_persisted_ids_witness :
    (runMain substrSearch deliverOk cfgEngineer [jobEngineer, jobManager]
        ["amazon:123"] =
      Except.ok (insert "greenhouse:acme:2"
        (["amazon:123"] : List String).toFinset, 1, [format_msg jobEngineer])) ∧
    insert "greenhouse:acme:2" (["amazon:123"] : List String).toFinset =
      (["amazon:123"] : List String).toFinset ∪
        (([jobEngineer, jobManager].filter
          (jobMatches substrSearch cfgEngineer)).map Job.id).toFinset := by
  have h : runMain substrSearch deliverOk cfgEngineer [jobEngineer, jobManager]
      ["amazon:123"] =
      Except.ok (insert "greenhouse:acme:2"
        (["amazon:123"] : List String).toFinset, 1, [format_msg jobEngineer]) := by
    decide
  exact ⟨h, c1_persisted_ids _ _ _ _ _ _ h⟩

/-- C4 counterexample: a run with one new matching posting and a failing
delivery channel ends with the propagated delivery error — `notify` on
bot.py line 265 is not wrapped in any handler, so `save_seen` on line 271
never runs and no seen set is persisted, contradicting the claim. -/
theorem c4_counterexample :
    runMain substrSearch (fun _ => Except.error ()) cfgEngineer [jobEngineer]
      [] = Except.error () := by decide

/-- C4 corrected: when delivery fails, the run aborts with the delivery
error before reaching `save_seen` — whenever some fetched posting is new
and passes both filters and every delivery attempt fails, the run result
is the propagated error, carrying no persisted state, so the ids processed
in the run are lost. -/
theorem c4_delivery_failure_no_persist (search : String → String → Bool)
    (cfg : Filters) (jobs : List Job) (loaded : List String)
    (h : ∃ job ∈ jobs, job.id ∉ loaded.toFinset ∧
      jobMatches search cfg job = true) :
    runMain search (fun _ => Except.error ()) cfg jobs loaded =
      Except.error () :=
  processJobs_fail search cfg jobs loaded.toFinset 0 [] h

/-- C4 witness: the corrected statement evaluated on a run with one new
matching posting and an always-failing delivery channel. -/
theorem c4_delivery_failure_no_persist_witness :
    (∃ job ∈ [jobEngineer], job.id ∉ ([] : List String).toFinset ∧
      jobMatches substrSearch cfgEngineer job = true) ∧
    runMain substrSearch (fun _ => Except.error ()) cfgEngineer [jobEngineer]
      [] = Except.error () := by
  have h : ∃ job ∈ [jobEngineer], job.id ∉ ([] : List String).toFinset ∧
      jobMatches substrSearch cfgEngineer job = true :=
    ⟨jobEngineer, by simp, by decide, by decide⟩
  exact ⟨h, c4_delivery_failure_no_persist _ _ _ _ h⟩

/-- C9: on a successful run the persisted seen set contains the loaded
one — the loop only ever inserts ids into `new_seen`, never removes any. -/
theorem c9_seen_monotone (search : String → String → Bool)
    (deliver : String → Except Unit Unit) (cfg : Filters)
    (jobs : List Job) (loaded : List String)
    (res : Finset String × Nat × List String)
    (h : runMain search deliver cfg jobs loaded = Except.ok res) :
    loaded.toFinset ⊆ res.1 := by
  rw [processJobs_ok_seen search deliver cfg jobs loaded.toFinset 0 [] res h]
  exact Finset.subset_union_left

/-- C9 witness: the monotonicity statement evaluated on a concrete
successful run that adds one id to a one-element loaded set. -/
theorem c9_seen_monotone_witness :
    (runMain substrSearch deliverOk cfgEngineer [jobEngineer] ["amazon:123"] =
      Except.ok (insert "greenhouse:acme:2"
        (["amazon:123"] : List String).toFinset, 1, [format_msg jobEngineer])) ∧
    (["amazon:123"] : List String).toFinset ⊆
      insert "greenhouse:acme:2" (["amazon:123"] : List String).toFinset := by
  have h : runMain substrSearch deliverOk cfgEngineer [jobEngineer]
      ["amazon:123"] =
      Except.ok (insert "greenhouse:acme:2"
        (["amazon:123"] : List String).toFinset, 1, [format_msg jobEngineer]) := by
    decide
  exact ⟨h, c9_seen_monotone _ _ _ _ _ _ h⟩

/-- The loop of `main` never reads the `must_have_all` field of the filter
configuration (bot.py line 261 calls `title_matches` without the optional
fourth argument). -/
theorem processJobs_mha (search : String → String → Bool)
    (deliver : String → Except Unit Unit)
    (inc exc locs m1 m2 : List String) :
    ∀ (jobs : List Job) (ns : Finset String) (cnt : Nat) (msgs : List String),
      processJobs search deliver ⟨inc, exc, m1, locs⟩ jobs ns cnt msgs =
        processJobs search deliver ⟨inc, exc, m2, locs⟩ jobs ns cnt msgs := by
  intro jobs
  induction jobs with
  | nil => intro ns cnt msgs; rfl
  | cons job rest ih =>
    intro ns cnt msgs
    simp only [processJobs]
    by_cases h1 : job.id ∈ ns
    · rw [if_pos h1, if_pos h1]
      exact ih ns cnt msgs
    · rw [if_neg h1, if_neg h1]
      by_cases htb : title_matches search job.title inc exc none = false
      · rw [if_pos htb, if_pos htb]
        exact ih ns cnt msgs
      · rw [if_neg htb, if_neg htb]
        by_cases hlb : location_matches job.locations locs = false
        · rw [if_pos hlb, if_pos hlb]
          exact ih ns cnt msgs
        · rw [if_neg hlb, if_neg hlb]
          rcases deliver (format_msg job) with e | u
          · rfl
          · exact ih (insert job.id ns) (cnt + 1) (msgs ++ [format_msg job])

/-- C10: `main` loads only the other three filter keys (bot.py lines
211-213) and invokes `title_matches` without `must_have_all`, so two runs
differing only in the `must_have_all` list produce identical results —
same delivered notifications, same match count, same persisted seen set. -/
theorem c10_must_have_all_noninterference (search : String → String → Bool)
    (deliver : String → Except Unit Unit) (cfg : Filters)
    (jobs : List Job) (loaded : List String) (m1 m2 : List String) :
    runMain search deliver { cfg with must_have_all := m1 } jobs loaded =
      runMain search deliver { cfg with must_have_all := m2 } jobs loaded := by
  obtain ⟨inc, exc, m0, locs⟩ := cfg
  exact processJobs_mha search deliver inc exc locs m1 m2 jobs
    loaded.toFinset 0 []
